import Mathlib

/-!
Shallow embedding of the session-manager layer of `src/lib/__init__.py`
(pyepics convenience functions `caget`, `caput`, `cainfo`, `camonitor`,
`camonitor_clear` and the private `__createPV` connection gate with its
two module-level caches `_Cache` and `_Monitors`).

Modelling conventions:
  * Time is measured in polling intervals (the source sleeps `1.e-3`
    seconds per iteration); one unit = 1 ms, so the default
    `timeout=5.0` seconds becomes `5000` units.
  * The external `PV` collaborator (the `pv` module is not part of the
    core source) is modelled by an environment `Env` of response
    functions, per the spec's collaborator contract (§6): `connect()`
    is non-blocking, `connected` becomes true at some instant (or
    never), `get`/`get_ctrlvars`/`put`/`info` return values supplied by
    the environment, `add_callback`/`clear_callbacks` subscribe and
    unsubscribe change-notification callbacks on the handle.
  * Every call into the collaborator is recorded as an `Event` so that
    claims about "how many connect attempts / ctrlvars fetches" are
    statable.
  * `sys.stdout` is the `stdout` field of the `World`: a list of the
    strings written, in order.
  * Python's `%`-formatting, as used by the source
    (`'cannot connect to %s\n'`, `"%s\n"`, `"%.32s %s %s\n"`), is
    embedded by `pyFormat`, a small interpreter of `%s` / `%.Ns`
    conversion specifiers over the format string's characters.
  * Python `dict` assignment/lookup on string keys is embedded by
    `insertA` / `lookupA` over association lists (replace-on-insert,
    first-match lookup; keys are unique by construction of `insertA`).
  * The one operation that can raise (`camonitor_clear` calling
    `clear_callbacks()` on a `None` registry entry) returns
    `Except PyErr`.
-/

/-- Values held by a process variable, as far as this layer looks at
them: the layer only passes them through or renders them with `repr`. -/
inductive Value where
  | vInt : Int → Value
  | vStr : String → Value
  deriving DecidableEq, Repr

/-- Python `repr` of the values of our `Value` type (used by the default
monitor callback when no `char_value` is supplied). -/
def reprValue : Value → String
  | Value.vInt i => toString i
  | Value.vStr s => "'" ++ s ++ "'"

/-- Read a run of decimal digits (a `%`-format precision), returning the
accumulated number and the rest of the characters. -/
def takeDigits (acc : Nat) : List Char → Nat × List Char
  | [] => (acc, [])
  | c :: rest =>
    if c.isDigit then takeDigits (acc * 10 + (c.toNat - 48)) rest
    else (acc, c :: rest)

/-- Apply a `%s` precision: `%.Ns` truncates the argument to its first
`N` characters; no precision leaves it unchanged. -/
def applyPrec : Option Nat → String → String
  | none, s => s
  | some n, s => String.mk (s.data.take n)

/-- Interpreter for the fragment of Python `%`-formatting the source
uses: literal characters, `%s`, and `%.Ns`.  The second argument is the
parser state: `none` when outside a conversion specifier, `some p` when
a `%` has been read and `p` is the precision read so far. -/
def pyFormatAux : List Char → Option (Option Nat) → List String → List Char
  | [], _, _ => []
  | c :: rest, none, args =>
    if c = '%' then pyFormatAux rest (some none) args
    else c :: pyFormatAux rest none args
  | c :: rest, some prec, args =>
    if c = 's' then
      match args with
      | [] => pyFormatAux rest none []
      | a :: args' => (applyPrec prec a).data ++ pyFormatAux rest none args'
    else if c = '.' then pyFormatAux rest (some (some 0)) args
    else if c.isDigit then
      match prec with
      | some n => pyFormatAux rest (some (some (n * 10 + (c.toNat - 48)))) args
      | none => pyFormatAux rest (some none) args
    else if c = '%' then '%' :: pyFormatAux rest none args
    else pyFormatAux rest none args

/-- Python `fmt % args` for the format strings the source uses. -/
def pyFormat (fmt : String) (args : List String) : String :=
  String.mk (pyFormatAux fmt.data none args)

/-- A PV handle: one Python `PV(pvname)` object.  `id` is the identity
of the object (allocation order), so that "the identical handle
instance" is statable. -/
structure Handle where
  id : Nat
  name : String
  deriving DecidableEq, Repr

/-- A change-notification callback registered on a handle: either the
user-supplied `callback` argument of `camonitor` (identified by a
number) or the default formatting closure capturing a `writer`
(`none` = `sys.stdout.write`). -/
inductive CB where
  | user : Nat → CB
  | defaultCB : Option Nat → CB
  deriving DecidableEq, Repr

/-- A call made into the external `PV` collaborator. -/
inductive Event where
  | connect : String → Event
  | get : String → Event
  | getAsString : String → Event
  | getCtrlvars : String → Event
  | put : String → Value → Bool → Nat → Event
  | addCallback : Nat → Event
  | clearCallbacks : Nat → Event
  deriving DecidableEq, Repr

/-- Behaviour of the external collaborator (the `pv` module and the
network), fixed for a run.  `connAt name` is the instant (in polling
intervals after `connect()`) at which the handle for `name` starts
reporting `connected`; `none` means it never does. -/
structure Env where
  connAt : String → Option Nat
  val : String → Value
  charVal : String → String
  info : String → String
  putRes : String → Value → Value

/-- The module-level mutable state: the two caches `_Cache` and
`_Monitors`, the callback lists of all allocated handles, the
allocation counter, the wall clock (in polling intervals), what was
written to `sys.stdout`, and the trace of collaborator calls. -/
structure World where
  cache : List (String × Handle)
  monitors : List (String × Option Handle)
  callbacks : List (Nat × List CB)
  nextHandle : Nat
  clock : Nat
  stdout : List String
  events : List Event
  deriving DecidableEq, Repr

/-- The state at module import: both caches empty. -/
def World.empty : World :=
  { cache := [], monitors := [], callbacks := [], nextHandle := 0,
    clock := 0, stdout := [], events := [] }

/-- First-match lookup in an association list (Python `d[k]` /
`k in d`). -/
def lookupA {κ α : Type} [DecidableEq κ] (k : κ) : List (κ × α) → Option α
  | [] => none
  | (k', v) :: rest => if k' = k then some v else lookupA k rest

/-- Replace-or-append insertion (Python `d[k] = v`). -/
def insertA {κ α : Type} [DecidableEq κ] (k : κ) (v : α) :
    List (κ × α) → List (κ × α)
  | [] => [(k, v)]
  | (k', v') :: rest =>
    if k' = k then (k, v) :: rest else (k', v') :: insertA k v rest

/-- The callbacks currently attached to handle `hid` (empty when the
handle was never allocated). -/
def getCallbacks (w : World) (hid : Nat) : List CB :=
  (lookupA hid w.callbacks).getD []

/-- Whether a handle whose `connected` flag turns on at `connAt`
reports connected at instant `t`. -/
def isConnected (connAt : Option Nat) (t : Nat) : Bool :=
  match connAt with
  | some k => decide (k ≤ t)
  | none => false

/-- The polling loop of `__createPV`:
`while not thispv.connected: time.sleep(1.e-3); if elapsed > timeout: break`.
`elapsed` counts completed sleeps; the function returns the elapsed
time at which the loop exits.  The structural `fuel` argument only
bounds recursion; `fuel = timeoutMs + 1 - elapsed` always suffices
because `elapsed` grows by one per iteration and the loop breaks once
`elapsed > timeoutMs`. -/
def connWaitAux : Nat → Option Nat → Nat → Nat → Nat
  | 0, _, _, elapsed => elapsed
  | fuel + 1, connAt, timeoutMs, elapsed =>
    if isConnected connAt elapsed then elapsed
    else
      if elapsed + 1 > timeoutMs then elapsed + 1
      else connWaitAux fuel connAt timeoutMs (elapsed + 1)

/-- Elapsed time (in polling intervals) at which the connection wait of
`__createPV` finishes, starting from the connect attempt. -/
def connWait (connAt : Option Nat) (timeoutMs : Nat) : Nat :=
  connWaitAux (timeoutMs + 1) connAt timeoutMs 0

/-- `__createPV(pvname, timeout)`: return the cached handle if present;
otherwise allocate a `PV`, `connect()`, poll until connected or
timeout; on success cache and return the handle, on failure write the
diagnostic to `sys.stdout` and return `None` without caching. -/
def createPV (env : Env) (w : World) (pvname : String) (timeoutMs : Nat) :
    Option Handle × World :=
  match lookupA pvname w.cache with
  | some h => (some h, w)
  | none =>
    let h : Handle := { id := w.nextHandle, name := pvname }
    let tEnd := connWait (env.connAt pvname) timeoutMs
    let w1 : World :=
      { w with
        nextHandle := w.nextHandle + 1
        callbacks := insertA h.id [] w.callbacks
        clock := w.clock + tEnd
        events := w.events ++ [Event.connect pvname] }
    if isConnected (env.connAt pvname) tEnd then
      (some h, { w1 with cache := insertA pvname h w1.cache })
    else
      (none,
       { w1 with
         stdout := w1.stdout ++ [pyFormat "cannot connect to %s\n" [pvname]] })

/-- `caput(pvname, value, wait=False, timeout=60)`: resolve, and if the
handle is available delegate to its `put`, else return `None`. -/
def caput (env : Env) (w : World) (pvname : String) (value : Value)
    (wait : Bool) (timeoutPut : Nat) : Option Value × World :=
  match createPV env w pvname 5000 with
  | (none, w') => (none, w')
  | (some _, w') =>
    (some (env.putRes pvname value),
     { w' with events := w'.events ++ [Event.put pvname value wait timeoutPut] })

/-- `caget(pvname, as_string=False)`: resolve; on success `get()` the
raw value (followed by a 1 ms cooperative sleep); if `as_string`,
additionally `get_ctrlvars()` (plus sleep) and return
`get(as_string=True)`; else return the raw value.  On failed
resolution return `None`. -/
def caget (env : Env) (w : World) (pvname : String) (asString : Bool) :
    Option Value × World :=
  match createPV env w pvname 5000 with
  | (none, w') => (none, w')
  | (some _, w') =>
    let v := env.val pvname
    let w2 : World :=
      { w' with events := w'.events ++ [Event.get pvname], clock := w'.clock + 1 }
    if asString then
      let w3 : World :=
        { w2 with
          events := w2.events ++ [Event.getCtrlvars pvname]
          clock := w2.clock + 1 }
      let w4 : World :=
        { w3 with events := w3.events ++ [Event.getAsString pvname] }
      (some (Value.vStr (env.charVal pvname)), w4)
    else
      (some v, w2)

/-- `cainfo(pvname, print_out=True)`: resolve; on success `get()` and
`get_ctrlvars()`, then either write `"%s\n" % thispv.info` to
`sys.stdout` (returning `None`) or return the info string (writing
nothing). -/
def cainfo (env : Env) (w : World) (pvname : String) (printOut : Bool) :
    Option String × World :=
  match createPV env w pvname 5000 with
  | (none, w') => (none, w')
  | (some _, w') =>
    let w2 : World :=
      { w' with
        events := w'.events ++ [Event.get pvname, Event.getCtrlvars pvname] }
    if printOut then
      (none,
       { w2 with stdout := w2.stdout ++ [pyFormat "%s\n" [env.info pvname]] })
    else
      (some (env.info pvname), w2)

/-- The exception `camonitor_clear` can raise: attribute access on a
`None` registry entry. -/
inductive PyErr where
  | attributeError : PyErr
  deriving DecidableEq, Repr

/-- `camonitor_clear(pvname)`: if `pvname` is in `_Monitors`, call
`clear_callbacks()` on the stored entry.  A `None` entry (left by a
`camonitor` whose resolution timed out) raises `AttributeError`. -/
def camonitor_clear (w : World) (pvname : String) : Except PyErr World :=
  match lookupA pvname w.monitors with
  | none => Except.ok w
  | some none => Except.error PyErr.attributeError
  | some (some h) =>
    Except.ok
      { w with
        callbacks := insertA h.id [] w.callbacks
        events := w.events ++ [Event.clearCallbacks h.id] }

/-- The line the default monitor callback writes for one change
notification: `writer("%.32s %s %s\n" % (pvname, pv.fmt_time(), char_value))`,
where `char_value = repr(value)` when no `char_value` was supplied.
`pv.fmt_time()` lives in the external `pv` module; the timestamp string
it returns is a parameter here. -/
def fmtMonitorLine (pvname : String) (timestamp : String) (value : Value)
    (char_value : Option String) : String :=
  let cv :=
    match char_value with
    | none => reprValue value
    | some s => s
  pyFormat "%.32s %s %s\n" [pvname, timestamp, cv]

/-- `camonitor(pvname, writer=None, callback=None)`: pick the callback
(the user one, or the default closure over `writer`, itself defaulting
to `sys.stdout.write`); resolve `pvname`; store the result — possibly
`None` — in `_Monitors`; if a handle came back, prime it with `get()`
and `add_callback` the chosen callback.  `camonitorCB` is the callback
selection at the top of `camonitor`: the user-supplied `callback` when
given, else the default formatting closure over `writer`. -/
def camonitorCB (writer : Option Nat) (callback : Option Nat) : CB :=
  match callback with
  | some u => CB.user u
  | none => CB.defaultCB writer

/-- The body of `camonitor` after callback selection; see
`camonitorCB`. -/
def camonitor (env : Env) (w : World) (pvname : String)
    (writer : Option Nat) (callback : Option Nat) : World :=
  let cb : CB := camonitorCB writer callback
  match createPV env w pvname 5000 with
  | (none, w') => { w' with monitors := insertA pvname none w'.monitors }
  | (some h, w') =>
    let w2 : World := { w' with monitors := insertA pvname (some h) w'.monitors }
    let w3 : World :=
      { w2 with events := w2.events ++ [Event.get pvname] }
    { w3 with
      callbacks := insertA h.id (getCallbacks w3 h.id ++ [cb]) w3.callbacks
      events := w3.events ++ [Event.addCallback h.id] }

/-- Number of `connect()` calls issued for `name` in the trace. -/
def connectCount (w : World) (name : String) : Nat :=
  (w.events.filter (fun e => decide (e = Event.connect name))).length

/-- A collaborator on which no PV ever reports connected (an
unreachable network). -/
def envNever : Env :=
  { connAt := fun _ => none
    val := fun _ => Value.vInt 0
    charVal := fun _ => ""
    info := fun _ => ""
    putRes := fun _ v => v }

/-- A collaborator on which every PV reports connected immediately. -/
def envNow : Env :=
  { connAt := fun _ => some 0
    val := fun _ => Value.vInt 7
    charVal := fun _ => "7.0"
    info := fun _ => "XX: double"
    putRes := fun _ v => v }

/-! ### Helper lemmas -/

theorem lookupA_insertA_self {κ α : Type} [DecidableEq κ] (k : κ) (v : α) :
    ∀ l : List (κ × α), lookupA k (insertA k v l) = some v := by
  intro l
  induction l with
  | nil => simp [insertA, lookupA]
  | cons p rest ih =>
    obtain ⟨k', v'⟩ := p
    by_cases h : k' = k
    · simp [insertA, lookupA, h]
    · simp [insertA, lookupA, h, ih]

theorem connWaitAux_none (t : Nat) :
    ∀ fuel e, e ≤ t → t + 1 - e ≤ fuel → connWaitAux fuel none t e = t + 1 := by
  intro fuel
  induction fuel with
  | zero => intro e he hf; omega
  | succ n ih =>
    intro e he hf
    simp only [connWaitAux, isConnected]
    by_cases h : e + 1 > t
    · have : e = t := by omega
      simp [h, this]
    · simp only [h, if_false, Bool.false_eq_true, if_neg]
      exact ih (e + 1) (by omega) (by omega)

theorem connWait_none (t : Nat) : connWait none t = t + 1 :=
  connWaitAux_none t (t + 1) 0 (Nat.zero_le t) (by omega)

/-- The failure path of `__createPV`, written out: on a cache miss for a
name that never connects, the call returns `None`, caches nothing,
burns `timeout + 1` polling intervals, issues one `connect()`, and
writes one diagnostic line. -/
theorem createPV_fail (env : Env) (w : World) (pvname : String) (t : Nat)
    (hnc : env.connAt pvname = none) (hc : lookupA pvname w.cache = none) :
    createPV env w pvname t =
      (none,
       { w with
         nextHandle := w.nextHandle + 1
         callbacks := insertA w.nextHandle [] w.callbacks
         clock := w.clock + (t + 1)
         events := w.events ++ [Event.connect pvname]
         stdout := w.stdout ++ [pyFormat "cannot connect to %s\n" [pvname]] }) := by
  unfold createPV
  rw [hc, hnc, connWait_none]
  simp [isConnected]

/-- The cached path of `__createPV`: a hit returns the cached handle
and leaves the world untouched. -/
theorem createPV_cached (env : Env) (w : World) (pvname : String) (t : Nat)
    (h : Handle) (hc : lookupA pvname w.cache = some h) :
    createPV env w pvname t = (some h, w) := by
  unfold createPV
  rw [hc]

/-- The fresh-success path of `__createPV`, written out. -/
theorem createPV_fresh_success (env : Env) (w : World) (pvname : String) (t : Nat)
    (hc : lookupA pvname w.cache = none)
    (hcon : isConnected (env.connAt pvname) (connWait (env.connAt pvname) t) = true) :
    createPV env w pvname t =
      (some { id := w.nextHandle, name := pvname },
       { w with
         cache := insertA pvname { id := w.nextHandle, name := pvname } w.cache
         nextHandle := w.nextHandle + 1
         callbacks := insertA w.nextHandle [] w.callbacks
         clock := w.clock + connWait (env.connAt pvname) t
         events := w.events ++ [Event.connect pvname] }) := by
  unfold createPV
  rw [hc]
  simp [hcon]

/-- Whenever `__createPV` hands back a handle, the cache maps the name
to that handle afterwards. -/
theorem createPV_success_cache (env : Env) (w : World) (pvname : String)
    (t : Nat) (h : Handle) (hs : (createPV env w pvname t).1 = some h) :
    lookupA pvname (createPV env w pvname t).2.cache = some h := by
  cases hc : lookupA pvname w.cache with
  | some h0 =>
    rw [createPV_cached env w pvname t h0 hc] at hs ⊢
    simp only [Option.some.injEq] at hs
    rw [← hs]
    exact hc
  | none =>
    cases hcon : isConnected (env.connAt pvname) (connWait (env.connAt pvname) t) with
    | true =>
      rw [createPV_fresh_success env w pvname t hc hcon] at hs ⊢
      simp only [Option.some.injEq] at hs
      simp [← hs, lookupA_insertA_self]
    | false =>
      unfold createPV at hs
      rw [hc] at hs
      simp [hcon] at hs

/-- Whenever `__createPV` hands back a handle, it wrote nothing to
`sys.stdout`. -/
theorem createPV_success_stdout (env : Env) (w : World) (pvname : String)
    (t : Nat) (h : Handle) (hs : (createPV env w pvname t).1 = some h) :
    (createPV env w pvname t).2.stdout = w.stdout := by
  cases hc : lookupA pvname w.cache with
  | some h0 => rw [createPV_cached env w pvname t h0 hc]
  | none =>
    cases hcon : isConnected (env.connAt pvname) (connWait (env.connAt pvname) t) with
    | true => rw [createPV_fresh_success env w pvname t hc hcon]
    | false =>
      unfold createPV at hs
      rw [hc] at hs
      simp [hcon] at hs

/-- Whenever `__createPV` hands back a handle, the only collaborator
call it may have added to the trace is the one `connect()`. -/
theorem createPV_success_events (env : Env) (w : World) (pvname : String)
    (t : Nat) (h : Handle) (hs : (createPV env w pvname t).1 = some h) :
    (createPV env w pvname t).2.events = w.events ∨
      (createPV env w pvname t).2.events = w.events ++ [Event.connect pvname] := by
  cases hc : lookupA pvname w.cache with
  | some h0 => rw [createPV_cached env w pvname t h0 hc]; exact Or.inl rfl
  | none =>
    cases hcon : isConnected (env.connAt pvname) (connWait (env.connAt pvname) t) with
    | true => rw [createPV_fresh_success env w pvname t hc hcon]; exact Or.inr rfl
    | false =>
      unfold createPV at hs
      rw [hc] at hs
      simp [hcon] at hs

/-- `'cannot connect to %s\n' % pvname`, spelled out. -/
theorem pyFormat_diag (n : String) :
    pyFormat "cannot connect to %s\n" [n] = "cannot connect to " ++ n ++ "\n" := by
  apply String.ext
  have hd : ("cannot connect to %s\n" : String).data =
      ['c','a','n','n','o','t',' ','c','o','n','n','e','c','t',' ','t','o',' ','%','s','\n'] := rfl
  simp only [pyFormat, hd]
  simp [pyFormatAux, applyPrec, String.data_append]

/-- `"%s\n" % s`, spelled out. -/
theorem pyFormat_line (s : String) : pyFormat "%s\n" [s] = s ++ "\n" := by
  apply String.ext
  have hd : ("%s\n" : String).data = ['%','s','\n'] := rfl
  simp only [pyFormat, hd]
  simp [pyFormatAux, applyPrec, String.data_append]

/-- `"%.32s %s %s\n" % (a, b, c)`, spelled out: `a` truncated to its
first 32 characters, then the three fields space-separated and
newline-terminated. -/
theorem pyFormat_monitor (a b c : String) :
    pyFormat "%.32s %s %s\n" [a, b, c] =
      String.mk (a.data.take 32) ++ " " ++ b ++ " " ++ c ++ "\n" := by
  apply String.ext
  have hd : ("%.32s %s %s\n" : String).data =
      ['%','.','3','2','s',' ','%','s',' ','%','s','\n'] := rfl
  simp only [pyFormat, hd]
  simp [pyFormatAux, applyPrec, String.data_append, List.append_assoc]

/-- `camonitor` when resolution hands back a handle: the registry maps
the name to that handle, the handle is primed with one `get()`, and the
chosen callback is appended to the handle's callback list. -/
theorem camonitor_success_eq (env : Env) (w : World) (name : String)
    (wr cbk : Option Nat) (hdl : Handle) (w' : World)
    (h : createPV env w name 5000 = (some hdl, w')) :
    camonitor env w name wr cbk =
      { w' with
        monitors := insertA name (some hdl) w'.monitors
        callbacks := insertA hdl.id
          (getCallbacks w' hdl.id ++ [camonitorCB wr cbk]) w'.callbacks
        events := w'.events ++ [Event.get name, Event.addCallback hdl.id] } := by
  unfold camonitor
  rw [h]
  simp [getCallbacks]

/-- `camonitor` when resolution times out: the registry maps the name
to `None` and nothing else happens beyond the failed resolution. -/
theorem camonitor_fail_eq (env : Env) (w : World) (name : String)
    (wr cbk : Option Nat) (w' : World)
    (h : createPV env w name 5000 = (none, w')) :
    camonitor env w name wr cbk =
      { w' with monitors := insertA name none w'.monitors } := by
  unfold camonitor
  rw [h]

/-! ### Claim theorems -/

/-- Claim C2 (confirmed): for every name whose handle never reports
connected and that is not already cached, each of `caget`, `caput`,
`cainfo` and `camonitor` returns the absence value (`caget`/`caput`/
`cainfo` return `None`; `camonitor` always returns `None` in the
source, being a plain side-effecting call), none of them raises (all
four are total functions of the embedding), and each call appends
exactly one diagnostic line `cannot connect to <name>` to
`sys.stdout`. -/
theorem unreachable_pv_absence_and_diagnostic (env : Env) (w : World)
    (name : String) (v : Value) (asString wait printOut : Bool) (tp : Nat)
    (wr cbk : Option Nat)
    (hnc : env.connAt name = none) (hc : lookupA name w.cache = none) :
    (caget env w name asString).1 = none ∧
    (caget env w name asString).2.stdout
      = w.stdout ++ ["cannot connect to " ++ name ++ "\n"] ∧
    (caput env w name v wait tp).1 = none ∧
    (caput env w name v wait tp).2.stdout
      = w.stdout ++ ["cannot connect to " ++ name ++ "\n"] ∧
    (cainfo env w name printOut).1 = none ∧
    (cainfo env w name printOut).2.stdout
      = w.stdout ++ ["cannot connect to " ++ name ++ "\n"] ∧
    (camonitor env w name wr cbk).stdout
      = w.stdout ++ ["cannot connect to " ++ name ++ "\n"] := by
  have h := createPV_fail env w name 5000 hnc hc
  rw [camonitor_fail_eq env w name wr cbk _ h]
  unfold caget caput cainfo
  rw [h]
  simp [pyFormat_diag]

/-- Claim C2 witness: on the never-connecting collaborator, `caget` of
an unseen name returns `None` and writes the one diagnostic line. -/
theorem unreachable_pv_absence_and_diagnostic_witness :
    (caget envNever World.empty "XX" false).1 = none ∧
    (caget envNever World.empty "XX" false).2.stdout
      = ["cannot connect to XX\n"] := by
  have h := unreachable_pv_absence_and_diagnostic envNever World.empty "XX"
    (Value.vInt 0) false false false 60 none none rfl rfl
  exact ⟨h.1, h.2.1⟩

/-- Claim C3 (corrected; amended form): if a name is already in the PV
Cache, resolution returns the cached handle with the world unchanged
(no new handle is constructed, no `connect()` is issued); hence after
any *successful* resolution, a second resolution returns the identical
handle and changes nothing, so at most one connect attempt is issued
per name while resolutions keep succeeding.  (The unconditional
"at most one connect attempt per name per process lifetime" of the
original claim is false: a timed-out name is retried with a fresh
connect on every call — see the counterexample.) -/
theorem cache_idempotence (env : Env) (w : World) (name : String)
    (t1 t2 : Nat) :
    (∀ h, lookupA name w.cache = some h → createPV env w name t1 = (some h, w)) ∧
    (∀ h, (createPV env w name t1).1 = some h →
      createPV env (createPV env w name t1).2 name t2
        = (some h, (createPV env w name t1).2)) := by
  constructor
  · intro h hc
    exact createPV_cached env w name t1 h hc
  · intro h hs
    exact createPV_cached env _ name t2 h (createPV_success_cache env w name t1 h hs)

/-- Claim C3 counterexample: for a never-connecting name, two
successive resolutions issue two `connect()` attempts (the trace holds
two connect events for the name), refuting "at most one connect
attempt is issued per name per process lifetime". -/
theorem timedout_name_reconnects_twice :
    connectCount
      (createPV envNever (createPV envNever World.empty "XX" 5000).2 "XX" 5000).2
      "XX" = 2 := by
  have h1 := createPV_fail envNever World.empty "XX" 5000 rfl rfl
  simp only [h1]
  have h2 := createPV_fail envNever
      { World.empty with
        nextHandle := World.empty.nextHandle + 1
        callbacks := insertA World.empty.nextHandle [] World.empty.callbacks
        clock := World.empty.clock + (5000 + 1)
        events := World.empty.events ++ [Event.connect "XX"]
        stdout := World.empty.stdout
          ++ [pyFormat "cannot connect to %s\n" ["XX"]] } "XX" 5000 rfl rfl
  simp only [h2]
  decide

/-- Claim C3 witness: after a successful resolution of `XX`, a second
resolution returns the identical handle (object 0) and leaves the
state untouched. -/
theorem cache_idempotence_witness :
    createPV envNow (createPV envNow World.empty "XX" 5000).2 "XX" 5000
      = (some { id := 0, name := "XX" }, (createPV envNow World.empty "XX" 5000).2) :=
  (cache_idempotence envNow World.empty "XX" 5000 5000).2 _ rfl

/-- Claim C4 (confirmed): resolving a name not already cached stores
the handle in the PV Cache under that name exactly when the handle
came back (connected in time); on timeout the cache is unchanged, so a
later retry may still succeed. -/
theorem resolution_caching (env : Env) (w : World) (name : String) (t : Nat)
    (hc : lookupA name w.cache = none) :
    (∀ h, (createPV env w name t).1 = some h →
      lookupA name (createPV env w name t).2.cache = some h) ∧
    ((createPV env w name t).1 = none →
      (createPV env w name t).2.cache = w.cache) := by
  constructor
  · intro h hs
    exact createPV_success_cache env w name t h hs
  · intro hn
    cases hcon : isConnected (env.connAt name) (connWait (env.connAt name) t) with
    | true =>
      rw [createPV_fresh_success env w name t hc hcon] at hn
      simp at hn
    | false =>
      unfold createPV
      rw [hc]
      simp [hcon]

/-- Claim C4 witness: a successful fresh resolution of `XX` caches
handle 0 under `XX`. -/
theorem resolution_caching_witness :
    lookupA "XX" (createPV envNow World.empty "XX" 5000).2.cache
      = some { id := 0, name := "XX" } :=
  (resolution_caching envNow World.empty "XX" 5000 rfl).1 _ rfl

/-- Claim C8 (confirmed): for a name whose handle never reports
connected and that is not cached, resolution terminates (the embedding
is a total function) returning the absence value, and the wall clock
advances by at most `timeout` plus one polling interval. -/
theorem timeout_bound (env : Env) (w : World) (name : String) (t : Nat)
    (hnc : env.connAt name = none) (hc : lookupA name w.cache = none) :
    (createPV env w name t).1 = none ∧
    (createPV env w name t).2.clock ≤ w.clock + (t + 1) := by
  rw [createPV_fail env w name t hnc hc]
  exact ⟨rfl, Nat.le_refl _⟩

/-- Claim C8 witness: on the never-connecting collaborator with the
default 5000 ms timeout, resolution of `XX` returns `None` after at
most 5001 ms. -/
theorem timeout_bound_witness :
    (createPV envNever World.empty "XX" 5000).1 = none ∧
    (createPV envNever World.empty "XX" 5000).2.clock ≤ 5001 :=
  timeout_bound envNever World.empty "XX" 5000 rfl rfl

/-- Claim C1 (corrected; amended form): after any `camonitor(name)`
call the Monitor Registry maps `name` to exactly the result of the
resolution — the real handle when resolution succeeded, but the
absence value `None` when it timed out (the source stores `thispv` in
`_Monitors` *before* the `None` check).  When the entry is a real
handle, that handle does carry an active callback: its callback list
ends with the callback chosen by this `camonitor` call. -/
theorem camonitor_registry_entry (env : Env) (w : World) (name : String)
    (wr cbk : Option Nat) :
    lookupA name (camonitor env w name wr cbk).monitors
      = some (createPV env w name 5000).1 ∧
    ∀ h, (createPV env w name 5000).1 = some h →
      getCallbacks (camonitor env w name wr cbk) h.id
        = getCallbacks (createPV env w name 5000).2 h.id
            ++ [camonitorCB wr cbk] := by
  rcases hcp : createPV env w name 5000 with ⟨r, w'⟩
  cases r with
  | none =>
    rw [camonitor_fail_eq env w name wr cbk w' hcp]
    constructor
    · simp [lookupA_insertA_self]
    · intro h habs
      simp at habs
  | some hdl =>
    rw [camonitor_success_eq env w name wr cbk hdl w' hcp]
    constructor
    · simp [lookupA_insertA_self]
    · intro h hh
      simp only [Option.some.injEq] at hh
      subst hh
      simp [getCallbacks, lookupA_insertA_self]

/-- Claim C1 counterexample: `camonitor` of a never-connecting name
leaves the name *present* in the Monitor Registry but mapped to the
absence value `None`, not to a real handle with a callback — refuting
the claim in the timed-out case it explicitly includes. -/
theorem camonitor_timedout_entry_is_none :
    lookupA "XX" (camonitor envNever World.empty "XX" none none).monitors
      = some none := by
  have h := createPV_fail envNever World.empty "XX" 5000 rfl rfl
  rw [camonitor_fail_eq envNever World.empty "XX" none none _ h]
  rfl

/-- Claim C1 witness: monitoring `XX` on the immediately-connecting
collaborator leaves `XX` mapped to handle 0, whose callback list now
ends with the chosen callback. -/
theorem camonitor_registry_entry_witness :
    lookupA "XX" (camonitor envNow World.empty "XX" none (some 7)).monitors
      = some (createPV envNow World.empty "XX" 5000).1 ∧
    getCallbacks (camonitor envNow World.empty "XX" none (some 7)) 0
      = getCallbacks (createPV envNow World.empty "XX" 5000).2 0
          ++ [CB.user 7] := by
  have h := camonitor_registry_entry envNow World.empty "XX" none (some 7)
  exact ⟨h.1, h.2 { id := 0, name := "XX" } rfl⟩

/-- Claim C5 (corrected; amended form): `camonitor_clear(name)` is a
silent no-op when `name` is absent from the Monitor Registry; when
`name` maps to a real handle it detaches that handle's callbacks and
returns nothing, raising nothing and leaving the registry key mapped;
but when `name` maps to the absence value `None` (left behind by a
`camonitor` whose resolution timed out) the call raises
`AttributeError` instead of being error-free. -/
theorem camonitor_clear_cases (w : World) (name : String) :
    (lookupA name w.monitors = none → camonitor_clear w name = Except.ok w) ∧
    (∀ h, lookupA name w.monitors = some (some h) →
      ∃ w', camonitor_clear w name = Except.ok w' ∧
        getCallbacks w' h.id = [] ∧
        w'.monitors = w.monitors ∧ w'.stdout = w.stdout) ∧
    (lookupA name w.monitors = some none →
      camonitor_clear w name = Except.error PyErr.attributeError) := by
  refine ⟨fun h => ?_, fun hdl h => ?_, fun h => ?_⟩
  · unfold camonitor_clear
    rw [h]
  · refine ⟨{ w with
        callbacks := insertA hdl.id [] w.callbacks
        events := w.events ++ [Event.clearCallbacks hdl.id] }, ?_, ?_, rfl, rfl⟩
    · unfold camonitor_clear
      rw [h]
    · simp [getCallbacks, lookupA_insertA_self]
  · unfold camonitor_clear
    rw [h]

/-- Claim C5 counterexample: after `camonitor` of a never-connecting
name, `camonitor_clear` of that name raises `AttributeError`
(`None.clear_callbacks()`), refuting "never an error" for names
present in the registry. -/
theorem camonitor_clear_none_entry_raises :
    camonitor_clear (camonitor envNever World.empty "XX" none none) "XX"
      = Except.error PyErr.attributeError := by
  have h := createPV_fail envNever World.empty "XX" 5000 rfl rfl
  rw [camonitor_fail_eq envNever World.empty "XX" none none _ h]
  rfl

/-- Claim C5 witness: clearing a name absent from the registry is a
silent no-op returning the state unchanged. -/
theorem camonitor_clear_cases_witness :
    camonitor_clear World.empty "XX" = Except.ok World.empty :=
  (camonitor_clear_cases World.empty "XX").1 rfl

/-- Claim C6 (confirmed): for a name that resolves successfully,
`cainfo` with `print_out=False` returns the handle's info string and
writes nothing to `sys.stdout`, while `print_out=True` writes that same
info string (newline-terminated) to `sys.stdout` and returns nothing —
exactly one of print/return happens on each call. -/
theorem cainfo_exclusivity (env : Env) (w : World) (name : String)
    (hdl : Handle) (hs : (createPV env w name 5000).1 = some hdl) :
    (cainfo env w name false).1 = some (env.info name) ∧
    (cainfo env w name false).2.stdout = w.stdout ∧
    (cainfo env w name true).1 = none ∧
    (cainfo env w name true).2.stdout
      = w.stdout ++ [env.info name ++ "\n"] := by
  have hst := createPV_success_stdout env w name 5000 hdl hs
  rcases hcp : createPV env w name 5000 with ⟨r, w'⟩
  rw [hcp] at hs hst
  simp only at hs hst
  subst hs
  unfold cainfo
  rw [hcp]
  simp [hst, pyFormat_line]

/-- Claim C6 witness: on the immediately-connecting collaborator,
`cainfo('XX', print_out=False)` returns the info string. -/
theorem cainfo_exclusivity_witness :
    (cainfo envNow World.empty "XX" false).1 = some "XX: double" := by
  have h := cainfo_exclusivity envNow World.empty "XX" { id := 0, name := "XX" } rfl
  exact h.1

/-- Claim C7 (confirmed): for a name that resolves successfully,
`caget` with `as_string=False` returns exactly the value the handle's
`get()` supplied; `caget` with `as_string=True` appends to the
collaborator trace exactly `get`, one `get_ctrlvars`, then the
formatted `get(as_string=True)` — one metadata fetch, before the
formatted re-fetch — and returns the formatted string of that second
get; the resolution step itself adds at most the one `connect` call to
the trace. -/
theorem caget_passthrough (env : Env) (w : World) (name : String)
    (hdl : Handle) (hs : (createPV env w name 5000).1 = some hdl) :
    (caget env w name false).1 = some (env.val name) ∧
    (caget env w name true).1 = some (Value.vStr (env.charVal name)) ∧
    (caget env w name true).2.events
      = (createPV env w name 5000).2.events
          ++ [Event.get name, Event.getCtrlvars name, Event.getAsString name] ∧
    ((createPV env w name 5000).2.events = w.events ∨
      (createPV env w name 5000).2.events
        = w.events ++ [Event.connect name]) := by
  have hev := createPV_success_events env w name 5000 hdl hs
  rcases hcp : createPV env w name 5000 with ⟨r, w'⟩
  rw [hcp] at hs hev
  simp only at hs
  subst hs
  unfold caget
  rw [hcp]
  refine ⟨rfl, rfl, ?_, hev⟩
  simp

/-- Claim C7 witness: `caget('XX')` on the immediately-connecting
collaborator returns exactly the collaborator-supplied value. -/
theorem caget_passthrough_witness :
    (caget envNow World.empty "XX" false).1 = some (Value.vInt 7) :=
  (caget_passthrough envNow World.empty "XX" { id := 0, name := "XX" } rfl).1

/-- Claim C9 (corrected; amended form): re-invoking `camonitor` on an
already-monitored name does replace the Monitor Registry entry (with
the same cached handle), but it does *not* replace the callback
registration: the new callback is appended after the old one, so after
the second call the handle carries both callbacks, not exactly one. -/
theorem remonitor_stacks_callbacks (env : Env) (w : World) (name : String)
    (wr1 wr2 : Option Nat) (c1 c2 : Nat) (hdl : Handle)
    (hs : (createPV env w name 5000).1 = some hdl) :
    lookupA name
        (camonitor env (camonitor env w name wr1 (some c1)) name wr2
          (some c2)).monitors
      = some (some hdl) ∧
    getCallbacks
        (camonitor env (camonitor env w name wr1 (some c1)) name wr2 (some c2))
        hdl.id
      = getCallbacks (camonitor env w name wr1 (some c1)) hdl.id
          ++ [CB.user c2] ∧
    getCallbacks (camonitor env w name wr1 (some c1)) hdl.id
      = getCallbacks (createPV env w name 5000).2 hdl.id ++ [CB.user c1] := by
  have hcache := createPV_success_cache env w name 5000 hdl hs
  rcases hcp : createPV env w name 5000 with ⟨r, w'⟩
  rw [hcp] at hs hcache
  simp only at hs hcache
  subst hs
  have hA := camonitor_success_eq env w name wr1 (some c1) hdl w' hcp
  have hAcache : lookupA name (camonitor env w name wr1 (some c1)).cache
      = some hdl := by
    rw [hA]
    exact hcache
  have hcp2 : createPV env (camonitor env w name wr1 (some c1)) name 5000
      = (some hdl, camonitor env w name wr1 (some c1)) :=
    createPV_cached env _ name 5000 hdl hAcache
  have hB := camonitor_success_eq env (camonitor env w name wr1 (some c1))
    name wr2 (some c2) hdl (camonitor env w name wr1 (some c1)) hcp2
  refine ⟨?_, ?_, ?_⟩
  · rw [hB]
    simp [lookupA_insertA_self]
  · rw [hB]
    simp [getCallbacks, lookupA_insertA_self, camonitorCB]
  · rw [hA]
    simp [getCallbacks, lookupA_insertA_self, camonitorCB]

/-- Claim C9 counterexample: monitoring `XX` twice (user callbacks 1
then 2) leaves handle 0 carrying *two* active callbacks, refuting
"after the second call, the handle carries exactly one active monitor
callback". -/
theorem remonitor_two_callbacks :
    getCallbacks
      (camonitor envNow (camonitor envNow World.empty "XX" none (some 1)) "XX"
        none (some 2)) 0
      = [CB.user 1, CB.user 2] := by
  decide

/-- Claim C9 witness: after the second `camonitor` of `XX`, the new
callback sits appended after the first call's callbacks. -/
theorem remonitor_stacks_callbacks_witness :
    getCallbacks
      (camonitor envNow (camonitor envNow World.empty "XX" none (some 1)) "XX"
        none (some 2)) 0
      = getCallbacks (camonitor envNow World.empty "XX" none (some 1)) 0
          ++ [CB.user 2] :=
  (remonitor_stacks_callbacks envNow World.empty "XX" none none 1 2
    { id := 0, name := "XX" } rfl).2.1

/-- Claim C10 (confirmed): the line the default monitor callback
writes is the PV name truncated to at most its first 32 characters, a
timestamp, and the formatted value, separated by single spaces and
newline-terminated; when no `char_value` is supplied, `repr` of the
raw value stands in for it. -/
theorem default_callback_line_format (name ts : String) (v : Value)
    (cv : Option String) :
    fmtMonitorLine name ts v cv
      = String.mk (name.data.take 32) ++ " " ++ ts ++ " "
          ++ cv.getD (reprValue v) ++ "\n" := by
  cases cv with
  | none => simp [fmtMonitorLine, pyFormat_monitor, Option.getD]
  | some s => simp [fmtMonitorLine, pyFormat_monitor, Option.getD]
